import Mathlib

set_option maxRecDepth 40000

/-!
Shallow embedding of the financial-advisor chat demo.

The embedded code lives in `src/components/FinancialChat.tsx` (the message
model, the canned-response classifier `simulateAIResponse`, and the submit
handler `handleSendMessage`) and in the chart component (the pie-chart
recommendations section).  Machine details that the claims depend on —
JavaScript `toLowerCase`, `includes`, `trim` and the truthiness checks — are
embedded explicitly below.
-/

/-- One point of the line-chart payload: the object `{ month, value }` from
the hard-coded data in `simulateAIResponse` (lines 55-68). -/
structure LinePoint where
  month : String
  value : Nat

deriving instance DecidableEq for LinePoint

/-- One slice of the pie-chart payload: the object
`{ name, value, recommended }` from the hard-coded data in
`simulateAIResponse` (lines 75-81). -/
structure PieSlice where
  name : String
  value : Int
  recommended : Int

deriving instance DecidableEq for PieSlice

/-- The tagged chart payload: `chartData.type` is "line" or "pie", and
`chartData.data` is the corresponding array. -/
inductive ChartData where
  | line (data : List LinePoint)
  | pie (data : List PieSlice)

deriving instance DecidableEq for ChartData

/-- The `Message` interface of `FinancialChat.tsx` (lines 9-16).  `timestamp`
models the `Date` value as a natural number of milliseconds; the optional
fields `hasChart` and `chartData` are `none` when absent or null. -/
structure Message where
  id : String
  content : String
  isUser : Bool
  timestamp : Nat
  hasChart : Option Bool
  chartData : Option ChartData

deriving instance DecidableEq for Message

/-- `leadMatch pat cs` holds when `pat` matches the front of `cs`
(character-list form of a match at one position). -/
def leadMatch : List Char → List Char → Bool
  | [], _ => true
  | _ :: _, [] => false
  | p :: ps, c :: cs => p == c && leadMatch ps cs

/-- `hasSub pat cs` holds when `pat` occurs contiguously somewhere in `cs`. -/
def hasSub (pat : List Char) : List Char → Bool
  | [] => leadMatch pat []
  | c :: cs => leadMatch pat (c :: cs) || hasSub pat cs

/-- JavaScript `s.includes(pat)`: substring containment. -/
def jsIncludes (s pat : String) : Bool :=
  hasSub pat.data s.data

/-- JavaScript `s.toLowerCase()`, restricted to the basic-latin letters that
the keyword groups use: each character is lowered with `Char.toLower`. -/
def jsToLower (s : String) : String :=
  ⟨s.data.map Char.toLower⟩

/-- The characters removed by JavaScript `String.prototype.trim`
(ECMA-262 WhiteSpace and LineTerminator code points). -/
def isJsSpace (c : Char) : Bool :=
  c == ' ' || c == '\t' || c == '\n' || c == '\r' ||
  c.toNat == 11 || c.toNat == 12 || c.toNat == 0xA0 || c.toNat == 0x1680 ||
  (0x2000 ≤ c.toNat && c.toNat ≤ 0x200A) ||
  c.toNat == 0x2028 || c.toNat == 0x2029 || c.toNat == 0x202F ||
  c.toNat == 0x205F || c.toNat == 0x3000 || c.toNat == 0xFEFF

/-- JavaScript `s.trim()`: drop leading and trailing whitespace. -/
def jsTrim (s : String) : String :=
  ⟨((s.data.dropWhile isJsSpace).reverse.dropWhile isJsSpace).reverse⟩

/-- `userMessage.toLowerCase().includes(kw)`, the test used by every branch
of `simulateAIResponse` (lines 50, 70, 83). -/
def mentions (u kw : String) : Bool :=
  jsIncludes (jsToLower u) kw

/-- The result computed inside the `setTimeout` callback of
`simulateAIResponse`: the reply text `response`, the `hasChart` flag, and the
`chartData` payload (null modelled as `none`). -/
structure AIResponse where
  response : String
  hasChart : Bool
  chartData : Option ChartData

deriving instance DecidableEq for AIResponse

/-- The reply of the portfolio/performance branch (line 51). -/
def performanceReply : String :=
  "Based on your current portfolio allocation, here's your performance over the last 12 months. Your balanced approach with 70% growth assets and 30% defensive assets has yielded a solid 8.2% return. Consider increasing your international equity exposure for better diversification."

/-- The reply of the allocation/diversif branch (line 71). -/
def allocationReply : String :=
  "Your current asset allocation shows room for improvement. Here's your breakdown and my recommended adjustments for better long-term growth while managing risk appropriately for your age profile."

/-- The reply of the retirement/goal branch (line 84). -/
def retirementReply : String :=
  "Based on your retirement goal of $1.2M by age 65, you're currently on track but could accelerate your progress. With your current contribution rate and expected returns, you'll reach approximately $1.05M. I recommend increasing your contributions by $200/month to meet your target."

/-- The fallback reply (line 86). -/
def fallbackReply : String :=
  "That's a great question! I can help you with portfolio optimization, retirement planning, investment explanations, and risk assessment. Feel free to ask about your superannuation performance, asset allocation, or any financial terms you'd like me to explain."

/-- The hard-coded line-chart data of the performance branch (lines 55-68). -/
def performanceData : List LinePoint :=
  [⟨"Jan", 95000⟩, ⟨"Feb", 97200⟩, ⟨"Mar", 96800⟩, ⟨"Apr", 99100⟩,
   ⟨"May", 101500⟩, ⟨"Jun", 103200⟩, ⟨"Jul", 105800⟩, ⟨"Aug", 104200⟩,
   ⟨"Sep", 107600⟩, ⟨"Oct", 109200⟩, ⟨"Nov", 112400⟩, ⟨"Dec", 115800⟩]

/-- The hard-coded pie-chart data of the allocation branch (lines 75-81). -/
def allocationData : List PieSlice :=
  [⟨"Australian Shares", 35, 40⟩, ⟨"International Shares", 25, 30⟩,
   ⟨"Property", 15, 10⟩, ⟨"Bonds", 20, 15⟩, ⟨"Cash", 5, 5⟩]

/-- The full result of the performance branch (lines 51-69). -/
def performanceResponse : AIResponse :=
  ⟨performanceReply, true, some (ChartData.line performanceData)⟩

/-- The full result of the allocation branch (lines 71-82). -/
def allocationResponse : AIResponse :=
  ⟨allocationReply, true, some (ChartData.pie allocationData)⟩

/-- The full result of the retirement branch (line 84): no chart. -/
def retirementResponse : AIResponse :=
  ⟨retirementReply, false, none⟩

/-- The full result of the fallback branch (line 86): no chart. -/
def fallbackResponse : AIResponse :=
  ⟨fallbackReply, false, none⟩

/-- The keyword branching of `simulateAIResponse` (lines 50-87): ordered
if/else-if chain, case-insensitive substring match, first match wins. -/
def simulateAIResponse (userMessage : String) : AIResponse :=
  if mentions userMessage "portfolio" || mentions userMessage "performance" then
    performanceResponse
  else if mentions userMessage "allocation" || mentions userMessage "diversif" then
    allocationResponse
  else if mentions userMessage "retirement" || mentions userMessage "goal" then
    retirementResponse
  else
    fallbackResponse

/-- The user message built by `handleSendMessage` (lines 106-111):
`id` is `Date.now().toString()`, `content` is the raw `inputValue`,
`isUser` is true, no chart fields. -/
def mkUserMessage (input : String) (t : Nat) : Message :=
  ⟨toString t, input, true, t, none, none⟩

/-- The assistant message built in the `setTimeout` callback of
`simulateAIResponse` (lines 89-96): the classifier output for the submitted
utterance, `isUser` false, with the branch's `hasChart` and `chartData`. -/
def mkAIMessage (input : String) (t : Nat) : Message :=
  ⟨toString t, (simulateAIResponse input).response, false, t,
   some (simulateAIResponse input).hasChart, (simulateAIResponse input).chartData⟩

/-- `initialMessages` (lines 18-25): the single greeting; `t0` models
`Date.now() - 5000`. -/
def initialMessages (t0 : Nat) : List Message :=
  [⟨"1",
    "Hello! I'm your AI superannuation advisor. I can help you optimize your retirement investments, explain financial terms, and provide personalized recommendations based on your goals. What would you like to know today?",
    false, t0, none, none⟩]

/-- The component state of `FinancialChat`: the `messages` list, the
`inputValue` string and the `isTyping` flag, plus `pending`, which models the
utterances whose `setTimeout` classifier callbacks are scheduled but have not
fired yet. -/
structure ChatState where
  messages : List Message
  inputValue : String
  isTyping : Bool
  pending : List String

deriving instance DecidableEq for ChatState

/-- `handleSendMessage` (lines 103-116): if the trimmed input is empty
(falsy), do nothing; otherwise append the user message verbatim, schedule the
classifier on the raw input (`simulateAIResponse(inputValue)`, which sets
`isTyping`), and clear the input box.  `t` models `Date.now()`. -/
def handleSendMessage (s : ChatState) (t : Nat) : ChatState :=
  if jsTrim s.inputValue = "" then s
  else
    { messages := s.messages ++ [mkUserMessage s.inputValue t]
      inputValue := ""
      isTyping := true
      pending := s.pending ++ [s.inputValue] }

/-- The `setTimeout` callback body of `simulateAIResponse` (lines 89-99)
firing for the oldest scheduled utterance: append the assistant message and
clear `isTyping`.  With no callback scheduled nothing happens. -/
def resolveResponse (s : ChatState) (t : Nat) : ChatState :=
  match s.pending with
  | [] => s
  | userMessage :: rest =>
    { messages := s.messages ++ [mkAIMessage userMessage t]
      inputValue := s.inputValue
      isTyping := false
      pending := rest }

/-- One full submission: the user types `input`, presses send at time `tu`,
and the delayed classifier response resolves at time `ta`. -/
def submitAndResolve (s : ChatState) (input : String) (tu ta : Nat) : ChatState :=
  resolveResponse (handleSendMessage { s with inputValue := input } tu) ta

/-- A session: a sequence of submissions, each one's delayed response
resolving before the next submission. -/
def runSession (s : ChatState) : List (String × Nat × Nat) → ChatState
  | [] => s
  | x :: rest => runSession (submitAndResolve s x.1 x.2.1 x.2.2) rest

/-- The mount-time state of the component: the greeting, an empty input box,
not typing, nothing scheduled. -/
def initialState (t0 : Nat) : ChatState :=
  ⟨initialMessages t0, "", false, []⟩

/-- The user/assistant message pairs a list of submissions produces. -/
def sessionTranscript : List (String × Nat × Nat) → List Message
  | [] => []
  | x :: rest => mkUserMessage x.1 x.2.1 :: mkAIMessage x.1 x.2.2 :: sessionTranscript rest

/-- The changes listed by the recommendations section of the pie chart
(FinancialChart, lines 100-119): one entry per slice whose `recommended`
field is truthy and differs from `value`, showing `recommended - value`. -/
def recommendedChanges (data : List PieSlice) : List Int :=
  data.filterMap (fun item =>
    if item.recommended ≠ 0 ∧ item.value ≠ item.recommended
    then some (item.recommended - item.value) else none)

/-- `Char.ofNat` at a code point below the surrogate range round-trips. -/
theorem toNat_ofNat_of_lt {m : Nat} (h : m < 0xd800) : (Char.ofNat m).toNat = m := by
  have hv : m.isValidChar := Or.inl h
  simp [Char.ofNat, dif_pos hv, Char.ofNatAux, Char.toNat, UInt32.toNat,
    BitVec.toNat_ofNatLt]

/-- Lowering a character twice is the same as lowering it once. -/
theorem charToLower_idem (c : Char) : Char.toLower (Char.toLower c) = Char.toLower c := by
  unfold Char.toLower
  by_cases h : c.toNat ≥ 65 ∧ c.toNat ≤ 90
  · rw [if_pos h]
    have ht : (Char.ofNat (c.toNat + 32)).toNat = c.toNat + 32 :=
      toNat_ofNat_of_lt (by omega)
    rw [if_neg (by omega)]
  · rw [if_neg h, if_neg h]

/-- JavaScript lowercasing is idempotent. -/
theorem jsToLower_idem (s : String) : jsToLower (jsToLower s) = jsToLower s := by
  simp only [jsToLower, List.map_map]
  exact congrArg String.mk (List.map_congr_left fun c _ => charToLower_idem c)

/-- The classifier only looks at the lowered utterance. -/
theorem mentions_jsToLower (u kw : String) : mentions (jsToLower u) kw = mentions u kw := by
  simp [mentions, jsToLower_idem]

/-- A submission with non-blank input, with no callback already scheduled,
appends exactly the user message and then the assistant message. -/
theorem submitAndResolve_eq (s : ChatState) (input : String) (tu ta : Nat)
    (hp : s.pending = []) (h : ¬ jsTrim input = "") :
    submitAndResolve s input tu ta =
      ⟨s.messages ++ [mkUserMessage input tu, mkAIMessage input ta], "", false, []⟩ := by
  simp [submitAndResolve, handleSendMessage, h, hp, resolveResponse]

/-- A session of non-blank submissions starting with nothing scheduled
appends exactly its transcript and ends with nothing scheduled. -/
theorem runSession_spec (subs : List (String × Nat × Nat)) :
    ∀ s : ChatState, s.pending = [] → (∀ x ∈ subs, ¬ jsTrim x.1 = "") →
      (runSession s subs).messages = s.messages ++ sessionTranscript subs
      ∧ (runSession s subs).pending = [] := by
  induction subs with
  | nil =>
    intro s hp _
    simp [runSession, sessionTranscript, hp]
  | cons x rest ih =>
    intro s hp h
    have hx : ¬ jsTrim x.1 = "" := h x (by simp)
    rw [runSession, submitAndResolve_eq s x.1 x.2.1 x.2.2 hp hx]
    obtain ⟨h1, h2⟩ :=
      ih ⟨s.messages ++ [mkUserMessage x.1 x.2.1, mkAIMessage x.1 x.2.2], "", false, []⟩
        rfl (fun y hy => h y (by simp [hy]))
    refine ⟨?_, h2⟩
    rw [h1]
    simp [sessionTranscript]

/-- Each submission contributes two messages to the transcript. -/
theorem sessionTranscript_length (subs : List (String × Nat × Nat)) :
    (sessionTranscript subs).length = 2 * subs.length := by
  induction subs with
  | nil => simp [sessionTranscript]
  | cons x rest ih =>
    simp [sessionTranscript, ih]
    omega

/-- A string made only of JavaScript whitespace trims to the empty string. -/
theorem jsTrim_eq_empty_of_all_space (s : String)
    (h : ∀ c ∈ s.data, isJsSpace c = true) : jsTrim s = "" := by
  have hd : s.data.dropWhile isJsSpace = [] := by
    rw [List.dropWhile_eq_nil_iff]
    exact h
  show String.mk _ = String.mk []
  rw [hd]
  simp

/-- C1: for every utterance, the classifier picks its response by
case-insensitive substring match against the ordered keyword groups, first
match wins: portfolio/performance gives the performance reply with a Line
payload; otherwise allocation/diversif gives the allocation reply with a Pie
payload; otherwise retirement/goal gives the retirement reply with no chart;
otherwise the fallback reply with no chart. -/
theorem c1_classifier_first_match (u : String) :
    ((mentions u "portfolio" || mentions u "performance") = true →
      simulateAIResponse u = performanceResponse)
  ∧ ((mentions u "portfolio" || mentions u "performance") = false →
      (mentions u "allocation" || mentions u "diversif") = true →
      simulateAIResponse u = allocationResponse)
  ∧ ((mentions u "portfolio" || mentions u "performance") = false →
      (mentions u "allocation" || mentions u "diversif") = false →
      (mentions u "retirement" || mentions u "goal") = true →
      simulateAIResponse u = retirementResponse)
  ∧ ((mentions u "portfolio" || mentions u "performance") = false →
      (mentions u "allocation" || mentions u "diversif") = false →
      (mentions u "retirement" || mentions u "goal") = false →
      simulateAIResponse u = fallbackResponse)
  ∧ performanceResponse.chartData = some (ChartData.line performanceData)
  ∧ allocationResponse.chartData = some (ChartData.pie allocationData)
  ∧ retirementResponse.chartData = none
  ∧ fallbackResponse.chartData = none := by
  refine ⟨fun h1 => by simp [simulateAIResponse, h1],
    fun h1 h2 => by simp [simulateAIResponse, h1, h2],
    fun h1 h2 h3 => by simp [simulateAIResponse, h1, h2, h3],
    fun h1 h2 h3 => by simp [simulateAIResponse, h1, h2, h3],
    rfl, rfl, rfl, rfl⟩

/-- C1 witness: each of the four branches at a concrete utterance. -/
theorem c1_classifier_first_match_witness :
    simulateAIResponse "Show me my PORTFOLIO" = performanceResponse
  ∧ simulateAIResponse "please diversify me" = allocationResponse
  ∧ simulateAIResponse "my goal" = retirementResponse
  ∧ simulateAIResponse "asdf" = fallbackResponse :=
  ⟨(c1_classifier_first_match "Show me my PORTFOLIO").1 (by decide),
   (c1_classifier_first_match "please diversify me").2.1 (by decide) (by decide),
   (c1_classifier_first_match "my goal").2.2.1 (by decide) (by decide) (by decide),
   (c1_classifier_first_match "asdf").2.2.2.1 (by decide) (by decide) (by decide)⟩

/-- C2: starting from the initial conversation holding only the greeting,
after N non-blank submissions whose delayed responses have all resolved, the
conversation is exactly the greeting followed by the N user/assistant pairs
in insertion order, hence 2N+1 messages. -/
theorem c2_session_shape (t0 : Nat) (subs : List (String × Nat × Nat))
    (h : ∀ x ∈ subs, ¬ jsTrim x.1 = "") :
    (runSession (initialState t0) subs).messages
      = initialMessages t0 ++ sessionTranscript subs
  ∧ (runSession (initialState t0) subs).messages.length = 2 * subs.length + 1 := by
  obtain ⟨h1, _⟩ := runSession_spec subs (initialState t0) rfl h
  refine ⟨h1, ?_⟩
  rw [h1, List.length_append, sessionTranscript_length]
  show 1 + 2 * subs.length = 2 * subs.length + 1
  omega

/-- C2 witness: a concrete two-submission session has 5 messages. -/
theorem c2_session_shape_witness :
    (runSession (initialState 0)
      [("Show portfolio", 1, 2), ("retirement goal", 3, 4)]).messages.length = 5 :=
  (c2_session_shape 0 [("Show portfolio", 1, 2), ("retirement goal", 3, 4)] (by decide)).2

/-- C3 counterexample: "portfolio allocation" contains "allocation", yet the
classifier does not return the allocation reply (the portfolio branch wins). -/
theorem c3_counterexample :
    mentions "portfolio allocation" "allocation" = true
  ∧ simulateAIResponse "portfolio allocation" ≠ allocationResponse := by
  exact ⟨by decide, by decide⟩

/-- C3 (amended): for every utterance containing "allocation" or "diversif"
(case-insensitive) and containing neither "portfolio" nor "performance", the
classifier returns the allocation reply with a Pie payload of exactly 5
categories whose values sum to 100. -/
theorem c3_allocation_payload (u : String)
    (h1 : (mentions u "portfolio" || mentions u "performance") = false)
    (h2 : (mentions u "allocation" || mentions u "diversif") = true) :
    simulateAIResponse u = allocationResponse
  ∧ allocationResponse.chartData = some (ChartData.pie allocationData)
  ∧ allocationData.length = 5
  ∧ (allocationData.map (fun s => s.value)).sum = 100 := by
  exact ⟨by simp [simulateAIResponse, h1, h2], rfl, by decide, by decide⟩

/-- C3 witness: the allocation quick action hits the amended statement. -/
theorem c3_allocation_payload_witness :
    simulateAIResponse "Review my asset allocation" = allocationResponse
  ∧ allocationResponse.chartData = some (ChartData.pie allocationData)
  ∧ allocationData.length = 5
  ∧ (allocationData.map (fun s => s.value)).sum = 100 :=
  c3_allocation_payload "Review my asset allocation" (by decide) (by decide)

/-- C4: for every utterance containing "portfolio" or "performance"
(case-insensitive), the classifier returns the performance reply with a Line
payload of exactly 12 points, ordered January through December. -/
theorem c4_performance_payload (u : String)
    (h : (mentions u "portfolio" || mentions u "performance") = true) :
    simulateAIResponse u = performanceResponse
  ∧ performanceResponse.chartData = some (ChartData.line performanceData)
  ∧ performanceData.length = 12
  ∧ performanceData.map (fun p => p.month)
      = ["Jan", "Feb", "Mar", "Apr", "May", "Jun",
         "Jul", "Aug", "Sep", "Oct", "Nov", "Dec"] := by
  exact ⟨by simp [simulateAIResponse, h], rfl, by decide, by decide⟩

/-- C4 witness: the performance quick action hits the statement. -/
theorem c4_performance_payload_witness :
    simulateAIResponse "Show me my portfolio performance" = performanceResponse
  ∧ performanceResponse.chartData = some (ChartData.line performanceData)
  ∧ performanceData.length = 12
  ∧ performanceData.map (fun p => p.month)
      = ["Jan", "Feb", "Mar", "Apr", "May", "Jun",
         "Jul", "Aug", "Sep", "Oct", "Nov", "Dec"] :=
  c4_performance_payload "Show me my portfolio performance" (by decide)

/-- C5: submitting an input that is empty or all whitespace is a no-op: the
whole component state — messages, input box, typing flag, scheduled
callbacks — is unchanged, and nothing fails. -/
theorem c5_blank_submit_noop (s : ChatState) (t : Nat)
    (h : ∀ c ∈ s.inputValue.data, isJsSpace c = true) :
    handleSendMessage s t = s := by
  simp [handleSendMessage, jsTrim_eq_empty_of_all_space s.inputValue h]

/-- C5 witness: submitting three spaces leaves the initial state intact. -/
theorem c5_blank_submit_noop_witness :
    handleSendMessage ⟨initialMessages 0, "   ", false, []⟩ 9
      = ⟨initialMessages 0, "   ", false, []⟩ :=
  c5_blank_submit_noop ⟨initialMessages 0, "   ", false, []⟩ 9 (by decide)

/-- C6: both operations on the conversation — submitting a user message and
appending a delayed assistant response — only append: the old message list is
an unchanged prefix of the new one. -/
theorem c6_append_only (s : ChatState) (t : Nat) :
    (∃ tail, (handleSendMessage s t).messages = s.messages ++ tail)
  ∧ (∃ tail, (resolveResponse s t).messages = s.messages ++ tail) := by
  constructor
  · by_cases h : jsTrim s.inputValue = ""
    · exact ⟨[], by simp [handleSendMessage, h]⟩
    · exact ⟨[mkUserMessage s.inputValue t], by simp [handleSendMessage, h]⟩
  · obtain ⟨msgs, inp, typ, pend⟩ := s
    cases pend with
    | nil => exact ⟨[], by simp [resolveResponse]⟩
    | cons w rest => exact ⟨[mkAIMessage w t], by simp [resolveResponse]⟩

/-- C7: keyword matching is case-insensitive: the classifier returns the
same response (category and chart payload) on the lowercased utterance as on
the original. -/
theorem c7_case_insensitive (u : String) :
    simulateAIResponse (jsToLower u) = simulateAIResponse u := by
  simp [simulateAIResponse, mentions_jsToLower]

/-- C8: the classifier is total: on every utterance it returns one of the
four pairwise distinct canned responses, and when no keyword group matches it
returns the fallback reply. -/
theorem c8_classifier_total (u : String) :
    (simulateAIResponse u = performanceResponse
      ∨ simulateAIResponse u = allocationResponse
      ∨ simulateAIResponse u = retirementResponse
      ∨ simulateAIResponse u = fallbackResponse)
  ∧ ((mentions u "portfolio" || mentions u "performance") = false →
      (mentions u "allocation" || mentions u "diversif") = false →
      (mentions u "retirement" || mentions u "goal") = false →
      simulateAIResponse u = fallbackResponse)
  ∧ (performanceResponse ≠ allocationResponse
      ∧ performanceResponse ≠ retirementResponse
      ∧ performanceResponse ≠ fallbackResponse
      ∧ allocationResponse ≠ retirementResponse
      ∧ allocationResponse ≠ fallbackResponse
      ∧ retirementResponse ≠ fallbackResponse) := by
  refine ⟨?_, fun h1 h2 h3 => by simp [simulateAIResponse, h1, h2, h3], by decide⟩
  unfold simulateAIResponse
  split
  · exact Or.inl rfl
  · split
    · exact Or.inr (Or.inl rfl)
    · split
      · exact Or.inr (Or.inr (Or.inl rfl))
      · exact Or.inr (Or.inr (Or.inr rfl))

/-- C8 witness: the empty string and a keyword-free string both fall back. -/
theorem c8_classifier_total_witness :
    simulateAIResponse "asdf123" = fallbackResponse
  ∧ simulateAIResponse "" = fallbackResponse :=
  ⟨(c8_classifier_total "asdf123").2.1 (by decide) (by decide) (by decide),
   (c8_classifier_total "").2.1 (by decide) (by decide) (by decide)⟩

/-- C9: when the trimmed input is non-empty, the appended user message
stores the raw input verbatim — trimming is used only for the emptiness
check, never applied to the stored content. -/
theorem c9_verbatim_content (s : ChatState) (t : Nat)
    (h : ¬ jsTrim s.inputValue = "") :
    (handleSendMessage s t).messages = s.messages ++ [mkUserMessage s.inputValue t]
  ∧ (mkUserMessage s.inputValue t).content = s.inputValue := by
  exact ⟨by simp [handleSendMessage, h], rfl⟩

/-- C9 witness: an input with surrounding spaces is stored with them. -/
theorem c9_verbatim_content_witness :
    (handleSendMessage ⟨initialMessages 0, "  hello  ", false, []⟩ 7).messages
      = initialMessages 0 ++ [mkUserMessage "  hello  " 7]
  ∧ (mkUserMessage "  hello  " 7).content = "  hello  " :=
  c9_verbatim_content ⟨initialMessages 0, "  hello  ", false, []⟩ 7 (by decide)

/-- C10: the recommended pie values sum to 100, the same total as the
current values, and the per-category changes shown by the chart's
recommendations section (the slices whose recommended value is truthy and
differs from the current one) sum to 0. -/
theorem c10_recommended_sums :
    (allocationData.map (fun s => s.recommended)).sum = 100
  ∧ (allocationData.map (fun s => s.recommended)).sum
      = (allocationData.map (fun s => s.value)).sum
  ∧ recommendedChanges allocationData = [5, 5, -5, -5]
  ∧ (recommendedChanges allocationData).sum = 0 := by
  exact ⟨by decide, by decide, by decide, by decide⟩
